import Mathlib

/-!
Shallow embedding of the AreoNet terrain-synthesis and cost-map core
(src/backend/dataset.py, src/backend/costmap.py, src/backend/main.py).

Grids are row-major lists of rows, matching numpy 2-D arrays indexed as
a[row, col] (row = j = vertical coordinate, col = i = horizontal).
Python floats are modelled as rational numbers; every decimal constant of
the source is exactly representable, so threshold comparisons and table
lookups are exact.  The two floating-point noise helpers of dataset.py
(_pseudo_rand, lines 39-42, and _sine_noise, lines 45-52) compute IEEE-754
sine expressions; an exact value-level embedding of libm sin is not
possible, so the per-style wave and pseudo-random fields are modelled as
explicit parameters (a NoiseFields record), and every theorem below
quantifies over all possible field values, which subsumes the concrete
sine-generated fields.  All rule cascades, thresholds, coordinate
transforms and data-path plumbing are translated from the source.
-/

/-- A 2-D array, row-major: the j-th element is row j, its i-th element is
column i, matching numpy indexing a[j, i]. -/
abbrev Mat (α : Type) : Type := List (List α)

/-- An RGB byte triple. -/
abbrev Pix : Type := ℕ × ℕ × ℕ

/-- Number of rows (numpy shape[0]). -/
def matH {α : Type} (m : Mat α) : ℕ := m.length

/-- Number of columns of the first row (numpy shape[1] for a rectangular
array). -/
def matW {α : Type} (m : Mat α) : ℕ := (m.getD 0 []).length

/-- The (rows, cols) shape pair. -/
def matDims {α : Type} (m : Mat α) : ℕ × ℕ := (matH m, matW m)

/-- Element at row j, column i (defaulting outside the grid). -/
def cellAt {α : Type} [Inhabited α] (m : Mat α) (j i : ℕ) : α :=
  (m.getD j []).getD i default

/-- The grid is rectangular: every row has the width of the first row. -/
def Rect {α : Type} (m : Mat α) : Prop := ∀ row ∈ m, row.length = matW m

instance {α : Type} (m : Mat α) : Decidable (Rect m) :=
  List.decidableBAll _ m

/-- One entry of the terrain-class registry (dataset.py lines 20-31). -/
structure TClass where
  id : ℕ
  name : String
  rgb : Pix
  cost : ℚ
  traversable : Bool
deriving DecidableEq

/-- The fixed 10-class registry TERRAIN_CLASSES of dataset.py lines 20-31
(the variant in segmentation.py differs only in entry 5, Sky with cost 0.0
and hex colors; the claims cite the dataset.py registry). -/
def TERRAIN_CLASSES : List TClass :=
  [⟨0, "Rock", (139, 115, 85), 0.9, false⟩,
   ⟨1, "Bush", (74, 112, 35), 0.75, false⟩,
   ⟨2, "Log", (139, 69, 19), 0.85, false⟩,
   ⟨3, "Sand", (222, 184, 135), 0.2, true⟩,
   ⟨4, "Landscape", (196, 168, 98), 0.15, true⟩,
   ⟨5, "Clear", (200, 210, 220), 0.1, true⟩,
   ⟨6, "Gravel", (169, 169, 169), 0.35, true⟩,
   ⟨7, "Water", (30, 80, 200), 0.95, false⟩,
   ⟨8, "Vegetation", (34, 139, 34), 0.5, true⟩,
   ⟨9, "Obstacle", (220, 20, 60), 1.0, false⟩]

/-- The wave / pseudo-random scalar fields each generator computes from
(size, seed) via _sine_noise and _pseudo_rand (dataset.py lines 63-64,
81-82, 101-102).  Arguments: grid size, seed, row j, column i.  They are
kept abstract because the source computes them with floating-point sine;
all theorems hold for every possible field. -/
structure NoiseFields where
  desertWave : ℕ → ℤ → ℕ → ℕ → ℚ
  desertR : ℕ → ℤ → ℕ → ℕ → ℚ
  rockyWave : ℕ → ℤ → ℕ → ℕ → ℚ
  rockyR : ℕ → ℤ → ℕ → ℕ → ℚ
  mixedWave : ℕ → ℤ → ℕ → ℕ → ℚ
  mixedR : ℕ → ℤ → ℕ → ℕ → ℚ

/-- Normalized coordinate ix / (size - 1) (dataset.py lines 60, 78, 98).
The subtraction is over ℚ, so size = 0 gives division by -1 as in numpy
(only relevant to empty grids, which have no cells); for size = 1 the
source produces IEEE 0/0 = nan while ℚ yields 0 -- no theorem below
depends on the size = 1 coordinate values. -/
def coordQ (size i : ℕ) : ℚ := (i : ℚ) / ((size : ℚ) - 1)

/-- Per-cell rule cascade of gen_desert (dataset.py lines 66-72), given the
wave and pseudo-random field values at the cell.  Each numpy masked
assignment is per-cell and last-write-wins. -/
def desertCell (w r : ℚ) : ℕ :=
  let l : ℕ := 3
  let l := if w > 0.45 then 0 else l
  let l := if w > 0.30 ∧ r > 0.78 then 1 else l
  let l := if w > 0.22 ∧ r > 0.90 then 2 else l
  let l := if w < 0.0 then 4 else l
  if r > 0.96 then 9 else l

/-- Per-cell rule cascade of gen_rocky (dataset.py lines 85-91); d is the
distance |X - 0.5| from the vertical centre line. -/
def rockyCell (w r d : ℚ) : ℕ :=
  let l : ℕ := 0
  let l := if w > 0.38 then 9 else l
  let l := if w < -0.2 then 8 else l
  let l := if d < 0.12 then 6 else l
  let l := if d < 0.07 ∧ r < 0.55 then 3 else l
  let l := if d < 0.12 ∧ r > 0.86 then 2 else l
  if d > 0.35 ∧ r > 0.88 then 1 else l

/-- Per-cell rules of gen_mixed up to and including the edge-obstacle rule
(dataset.py lines 104-127), i.e. the state of the labels grid at the
moment the gravel-path rule runs.  np.hypot(X-0.82, Z-0.82) < t is
embedded as the exact square comparison (X-0.82)^2 + (Z-0.82)^2 < t^2. -/
def mixedCellPre (w r x z : ℚ) : ℕ :=
  let dw2 : ℚ := (x - 0.82) ^ 2 + (z - 0.82) ^ 2
  let l : ℕ := 4
  let l := if dw2 < 0.18 ^ 2 then 7 else l
  let l := if dw2 ≥ 0.18 ^ 2 ∧ dw2 < 0.27 ^ 2 then 6 else l
  let l := if x > 0.65 ∧ z < 0.35 ∧ w > 0.20 then 0 else l
  let l := if x > 0.65 ∧ z < 0.35 ∧ w > 0.35 then 9 else l
  let l := if x < 0.35 ∧ z < 0.35 then 8 else l
  let l := if x < 0.35 ∧ z < 0.35 ∧ r > 0.70 then 1 else l
  let l := if |x - z| < 0.04 ∧ r > 0.80 then 2 else l
  let l := if |x - 0.5| < 0.1 ∧ |z - 0.5| < 0.1 ∧ r > 0.65 then 5 else l
  if r > 0.97 then 9 else l

/-- Full per-cell cascade of gen_mixed (dataset.py lines 104-134): after
the rules of mixedCellPre, the gravel-path rule (line 131) and the
sand-strip rule (line 134), each of which tests the grid value current at
the moment it runs (labels == 4). -/
def mixedCell (w r x z : ℚ) : ℕ :=
  let l := mixedCellPre w r x z
  let l := if (|x - 0.5| < 0.06 ∨ |z - 0.5| < 0.06) ∧ l = 4 then 6 else l
  if w > 0.15 ∧ l = 4 ∧ r > 0.6 then 3 else l

/-- A size x size grid whose (j, i) cell is f j i. -/
def gridOf (size : ℕ) (f : ℕ → ℕ → ℕ) : Mat ℕ :=
  (List.range size).map fun j => (List.range size).map fun i => f j i

/-- gen_desert (dataset.py lines 57-72) over abstract noise fields. -/
def gen_desert (nf : NoiseFields) (size : ℕ) (seed : ℤ) : Mat ℕ :=
  gridOf size fun j i =>
    desertCell (nf.desertWave size seed j i) (nf.desertR size seed j i)

/-- gen_rocky (dataset.py lines 75-92) over abstract noise fields. -/
def gen_rocky (nf : NoiseFields) (size : ℕ) (seed : ℤ) : Mat ℕ :=
  gridOf size fun j i =>
    rockyCell (nf.rockyWave size seed j i) (nf.rockyR size seed j i)
      |coordQ size i - 0.5|

/-- gen_mixed (dataset.py lines 95-136) over abstract noise fields. -/
def gen_mixed (nf : NoiseFields) (size : ℕ) (seed : ℤ) : Mat ℕ :=
  gridOf size fun j i =>
    mixedCell (nf.mixedWave size seed j i) (nf.mixedR size seed j i)
      (coordQ size i) (coordQ size j)

/-- gen_random (dataset.py lines 139-144): style = seed % 3 selects the
generator; Python % on a positive modulus agrees with Int.emod. -/
def gen_random (nf : NoiseFields) (size : ℕ) (seed : ℤ) : Mat ℕ :=
  if seed % 3 = 0 then gen_desert nf size seed
  else if seed % 3 = 1 then gen_rocky nf size seed
  else gen_mixed nf size seed

/-- Truncation toward zero, the semantics of numpy astype from float to a
signed integer type for in-range values (C cast). -/
def ratTrunc (q : ℚ) : ℤ := q.num.tdiv q.den

/-- astype(np.uint8) of an in-range nonnegative float value: truncate, then
reduce mod 256.  (Out-of-range float-to-uint8 conversion is undefined in
numpy; no modelled code path exercises it.) -/
def npUint8 (q : ℚ) : ℕ := ((ratTrunc q) % 256).toNat

/-- np.clip(v, 0, 255) followed by astype(np.uint8), used by render_terrain
(dataset.py line 189) and augment_image (line 166). -/
def clip255 (q : ℚ) : ℕ := (ratTrunc (min (max q 0) 255)).toNat

/-- The class-to-cost lookup loop of generate_cost_map (costmap.py lines
27-34), per cell: cost_grid is zero-initialised and each registry entry
overwrites the cells whose mask value equals its id (last write wins).
A value matching no entry keeps the initial 0.  The Gaussian blur and
clip that follow (lines 38-41) act on the whole grid afterwards. -/
def costLookupCell (classes : List TClass) (v : ℕ) : ℚ :=
  classes.foldl (fun acc c => if v = c.id then c.cost else acc) 0

/-- The lookup stage of generate_cost_map over a whole mask. -/
def costLookup (mask : Mat ℕ) (classes : List TClass) : Mat ℚ :=
  mask.map (List.map (costLookupCell classes))

/-- Per-cell color assignment of render_terrain (dataset.py lines 180-190):
rgb is zero-initialised, then for each (cid, tc) in enumerate of the
registry, cells with label cid receive clip(base + jitter, 0, 255) as
uint8.  jit gives the per-class Gaussian jitter triple drawn for this
cell (rng.normal, line 188, modelled as a parameter).  A label matching
no class index keeps (0, 0, 0). -/
def renderCell (jit : ℕ → ℚ × ℚ × ℚ) (v : ℕ) : Pix :=
  TERRAIN_CLASSES.enum.foldl
    (fun acc p =>
      if v = p.1 then
        (clip255 ((p.2.rgb.1 : ℚ) + (jit p.1).1),
         clip255 ((p.2.rgb.2.1 : ℚ) + (jit p.1).2.1),
         clip255 ((p.2.rgb.2.2 : ℚ) + (jit p.1).2.2))
      else acc)
    (0, 0, 0)

/-- The rgb array construction of render_terrain (dataset.py lines
180-190).  The subsequent PIL steps (fromarray, Gaussian blur of radius
0.8, bilinear resize, lines 192-197) are image-level post-processing of
this array. -/
def renderRGB (labels : Mat ℕ) (jit : ℕ → ℕ → ℕ → ℚ × ℚ × ℚ) : Mat Pix :=
  (List.range (matH labels)).map fun j =>
    (List.range ((labels.getD j []).length)).map fun i =>
      renderCell (fun cid => jit cid j i) (cellAt labels j i)

/-- Python evaluation of (255).astype(np.uint8) -- costmap.py line 92: a
plain int has no astype attribute, so the expression raises
AttributeError regardless of the grid contents. -/
def intAstype (_n : ℤ) : Except String ℤ :=
  Except.error "AttributeError: int object has no attribute astype"

/-- The safe-zone (cost < 0.3) per-cell color of apply_terrain_colormap
(costmap.py lines 85-87): green = 255*(1 - c/0.3), red = 100*(c/0.3),
blue = 0, each cast with astype(np.uint8). -/
def safeCellColor (c : ℚ) : Pix :=
  (npUint8 (100 * (c / 0.3)), npUint8 (255 * (1 - c / 0.3)), 0)

/-- apply_terrain_colormap (costmap.py lines 74-101).  The safe-zone
writes (lines 85-87) evaluate first; then line 92 evaluates
(255).astype(np.uint8) unconditionally -- before the caution mask is
even consulted -- which raises AttributeError, so the function never
returns for any input.  The continuation after the raise (caution and
danger zones, lines 93-99) is translated for completeness but is
unreachable. -/
def apply_terrain_colormap (g : Mat ℚ) : Except String (Mat Pix) := do
  let _safeWrites : Mat Pix :=
    g.map (List.map fun c => if c < 0.3 then safeCellColor c else (0, 0, 0))
  let v ← intAstype 255
  let final : Mat Pix :=
    g.map (List.map fun c =>
      if c < 0.3 then safeCellColor c
      else if c < 0.6 then
        ((v % 256).toNat, npUint8 (255 * (1 - (c - 0.3) / 0.3)), 0)
      else (255, 0, 0))
  pure final

/-- np.fliplr: reverse the column order of every row. -/
def fliplrM {α : Type} (m : Mat α) : Mat α := m.map List.reverse

/-- np.flipud: reverse the row order.  PIL FLIP_LEFT_RIGHT and
FLIP_TOP_BOTTOM act identically on the image array. -/
def flipudM {α : Type} (m : Mat α) : Mat α := m.reverse

/-- One 90-degree counterclockwise rotation, np.rot90 with k = 1:
out[r][c] = in[c][W-1-r]. -/
def rot90M {α : Type} [Inhabited α] (m : Mat α) : Mat α :=
  (List.range (matW m)).map fun r =>
    (List.range (matH m)).map fun c => cellAt m c (matW m - 1 - r)

/-- np.rot90 with count k: k successive counterclockwise quarter turns. -/
def rotk {α : Type} [Inhabited α] : ℕ → Mat α → Mat α
  | 0, m => m
  | k + 1, m => rot90M (rotk k m)

/-- Pillow nearest-neighbour source-coordinate conversion (the COORD macro
of src/libImaging/Geometry.c): negative coordinates map to the
out-of-bounds sentinel -1, nonnegative ones truncate. -/
def pilCoord (q : ℚ) : ℤ := if q < 0 then -1 else ratTrunc q

/-- Pillow Image.rotate(angle, expand=False) for angle 90 (k = 1) or 270
(k = 3) on a non-square image: an affine resampling into the unchanged
w x h canvas.  The matrix is the one Image.rotate builds around the
centre (w/2, h/2) (cos/sin rounded to exact 0 / +-1 for right angles);
each output pixel (x, y) samples the source at the matrix applied to the
pixel centre (x + 1/2, y + 1/2), truncated by pilCoord, with fill 0 for
out-of-bounds. -/
def pilAffineRot (k : ℕ) (m : Mat Pix) : Mat Pix :=
  let w : ℚ := (matW m : ℚ)
  let h : ℚ := (matH m : ℚ)
  let cx := w / 2
  let cy := h / 2
  let a : ℚ × ℚ × ℚ × ℚ × ℚ × ℚ :=
    if k = 1 then (0, -1, cx + cy, 1, 0, cy - cx)
    else (0, 1, cx - cy, -1, 0, cx + cy)
  (List.range (matH m)).map fun y =>
    (List.range (matW m)).map fun x =>
      let sx := pilCoord (a.1 * ((x : ℚ) + 1/2) + a.2.1 * ((y : ℚ) + 1/2) + a.2.2.1)
      let sy := pilCoord (a.2.2.2.1 * ((x : ℚ) + 1/2) + a.2.2.2.2.1 * ((y : ℚ) + 1/2) + a.2.2.2.2.2)
      if 0 ≤ sx ∧ sx < (matW m : ℤ) ∧ 0 ≤ sy ∧ sy < (matH m : ℤ) then
        cellAt m sy.toNat sx.toNat
      else (0, 0, 0)

/-- Pillow Image.rotate(k * 90, expand=False) for k in {1, 2, 3}
(augment_image, dataset.py line 162): 180 degrees is an exact transpose
for any shape; 90 / 270 are exact quarter turns only when the image is
square, otherwise Pillow resamples into the unchanged canvas. -/
def pilRotate90k (k : ℕ) (m : Mat Pix) : Mat Pix :=
  if k % 4 = 0 then m
  else if k % 4 = 2 then flipudM (fliplrM m)
  else if matH m = matW m then rotk (k % 4) m
  else pilAffineRot (k % 4) m

/-- The four random draws consumed by augment_image (dataset.py lines
152-165), in draw order: the two flip coin-flips (rng.random() > 0.5),
the rotation count k = rng.integers(0, 4), and the photometric factor
rng.uniform(0.85, 1.15). -/
structure Draws where
  hflip : Bool
  vflip : Bool
  k : Fin 4
  factor : ℚ
deriving DecidableEq

/-- Photometric jitter on one pixel (dataset.py line 166):
clip(channel * factor, 0, 255) as uint8, applied to the image only. -/
def jitterPix (factor : ℚ) (p : Pix) : Pix :=
  (clip255 ((p.1 : ℚ) * factor), clip255 ((p.2.1 : ℚ) * factor),
   clip255 ((p.2.2 : ℚ) * factor))

/-- The guarded horizontal-flip step (dataset.py lines 152-154): flip iff
the draw said so. -/
def flipStageH {α : Type} (b : Bool) (m : Mat α) : Mat α :=
  if b then fliplrM m else m

/-- The guarded vertical-flip step (dataset.py lines 156-158). -/
def flipStageV {α : Type} (b : Bool) (m : Mat α) : Mat α :=
  if b then flipudM m else m

/-- The guarded rotation step on the image (dataset.py lines 160-162):
img.rotate(k * 90) is applied only when k > 0. -/
def rotStageImg (k : ℕ) (m : Mat Pix) : Mat Pix :=
  if 0 < k then pilRotate90k k m else m

/-- The guarded rotation step on the label (dataset.py lines 160-163):
np.rot90(label, k) is applied only when k > 0. -/
def rotStageLbl {α : Type} [Inhabited α] (k : ℕ) (m : Mat α) : Mat α :=
  if 0 < k then rotk k m else m

/-- augment_image (dataset.py lines 149-168): horizontal flip, vertical
flip, k * 90-degree rotation -- image via PIL, label via np.fliplr /
np.flipud / np.rot90, each pair of operations guarded by the same draw --
then photometric jitter on the image only.  There is no shape check
anywhere in the function. -/
def augment_image (img : Mat Pix) (lbl : Mat ℕ) (d : Draws) :
    Mat Pix × Mat ℕ :=
  ((rotStageImg d.k.val (flipStageV d.vflip (flipStageH d.hflip img))).map
      (List.map (jitterPix d.factor)),
   rotStageLbl d.k.val (flipStageV d.vflip (flipStageH d.hflip lbl)))

/-- Modelled from the spec (section 4.4 invariant): the recorded sequence
of flips and the k * 90-degree rotation applied directly to the original
label, with no photometric step. -/
def applyGeoLabel (d : Draws) (lbl : Mat ℕ) : Mat ℕ :=
  rotStageLbl d.k.val (flipStageV d.vflip (flipStageH d.hflip lbl))

/-- The record returned by export_cost_grid_ros (costmap.py lines
104-134), keeping the fields the claims speak about. -/
structure RosGrid where
  frame_id : String
  resolution : ℚ
  width : ℕ
  height : ℕ
  data : List ℤ
deriving DecidableEq

/-- export_cost_grid_ros (costmap.py lines 104-134): h, w = shape;
data = (cost_grid * 100).astype(np.int8).flatten().tolist() -- row-major
flatten, each cell scaled by 100 and truncated toward zero (the int8
cast is in range because cost is in [0, 1]). -/
def export_cost_grid_ros (g : Mat ℚ) (resolution : ℚ) : RosGrid :=
  { frame_id := "map"
    resolution := resolution
    width := matW g
    height := matH g
    data := g.flatten.map fun c => ratTrunc (c * 100) }

/-- Per-class base heights H_BASE (main.py line 188). -/
def H_BASE : List ℚ :=
  [0.55, 0.35, 0.22, 0.08, 0.18, 0.02, 0.12, -0.25, 0.28, 0.80]

/-- Per-class height variances H_VAR (main.py line 189). -/
def H_VAR : List ℚ :=
  [0.50, 0.20, 0.12, 0.08, 0.15, 0.04, 0.06, 0.05, 0.12, 0.40]

/-- One cell of the height map (main.py lines 192-193):
H_BASE[cid] + H_VAR[cid] * noise.  (Python would raise IndexError for
cid > 9; grids produced by the generators only contain ids 0..9.) -/
def heightCell (cid : ℕ) (u : ℚ) : ℚ :=
  H_BASE.getD cid 0 + H_VAR.getD cid 0 * u

/-- The height-map construction of get_terrain (main.py lines 186-193)
over a class grid; u is the uniform [0, 1) noise field
np.random.default_rng(seed).random((grid, grid)), freshly seeded by the
request seed and modelled as a parameter. -/
def heightMapGrid (labels : Mat ℕ) (u : ℕ → ℕ → ℚ) : Mat ℚ :=
  (List.range (matH labels)).map fun j =>
    (List.range ((labels.getD j []).length)).map fun i =>
      heightCell (cellAt labels j i) (u j i)

/-- All-zero noise fields, used to instantiate universally quantified
theorems at a concrete input. -/
def nfZero : NoiseFields :=
  ⟨fun _ _ _ _ => 0, fun _ _ _ _ => 0, fun _ _ _ _ => 0,
   fun _ _ _ _ => 0, fun _ _ _ _ => 0, fun _ _ _ _ => 0⟩

/-- All-zero render jitter, for concrete instantiations. -/
def jitZero : ℕ → ℕ → ℕ → ℚ × ℚ × ℚ := fun _ _ _ => (0, 0, 0)

/-! ### Helper lemmas -/

theorem getD_range_map {β : Type} (n : ℕ) (f : ℕ → β) (j : ℕ) (d : β)
    (h : j < n) : ((List.range n).map f).getD j d = f j := by
  rw [List.getD_eq_getElem?_getD, List.getElem?_map, List.getElem?_range h]
  rfl

theorem cellAt_gridOf (size : ℕ) (f : ℕ → ℕ → ℕ) (j i : ℕ)
    (hj : j < size) (hi : i < size) : cellAt (gridOf size f) j i = f j i := by
  unfold cellAt gridOf
  rw [getD_range_map _ _ _ _ hj, getD_range_map _ _ _ _ hi]

theorem gridOf_mem {size : ℕ} {f : ℕ → ℕ → ℕ} {P : ℕ → Prop}
    (hf : ∀ j i, P (f j i)) : ∀ row ∈ gridOf size f, ∀ v ∈ row, P v := by
  intro row hrow v hv
  obtain ⟨j, _, rfl⟩ := List.mem_map.1 hrow
  obtain ⟨i, _, rfl⟩ := List.mem_map.1 hv
  exact hf j i

theorem foldl_id_of_mem {α β : Type} {l : List α} {f : β → α → β} {b : β}
    (h : ∀ b' c, c ∈ l → f b' c = b') : l.foldl f b = b := by
  induction l generalizing b with
  | nil => rfl
  | cons c t ih =>
    rw [List.foldl_cons, h b c (List.mem_cons_self c t)]
    exact ih fun b' c' hc' => h b' c' (List.mem_cons_of_mem _ hc')

theorem terrain_ids_eq :
    TERRAIN_CLASSES.map TClass.id = [0, 1, 2, 3, 4, 5, 6, 7, 8, 9] := rfl

theorem desertCell_mem_ids (w r : ℚ) :
    desertCell w r ∈ TERRAIN_CLASSES.map TClass.id := by
  rw [terrain_ids_eq]
  unfold desertCell
  dsimp only
  split_ifs <;> decide

theorem rockyCell_mem_ids (w r d : ℚ) :
    rockyCell w r d ∈ TERRAIN_CLASSES.map TClass.id := by
  rw [terrain_ids_eq]
  unfold rockyCell
  dsimp only
  split_ifs <;> decide

theorem mixedCellPre_mem_ids (w r x z : ℚ) :
    mixedCellPre w r x z ∈ TERRAIN_CLASSES.map TClass.id := by
  rw [terrain_ids_eq]
  unfold mixedCellPre
  dsimp only
  split_ifs <;> decide

theorem mixedCell_mem_ids (w r x z : ℚ) :
    mixedCell w r x z ∈ TERRAIN_CLASSES.map TClass.id := by
  rw [terrain_ids_eq]
  unfold mixedCell
  dsimp only
  split_ifs <;> first
    | decide
    | (unfold mixedCellPre; dsimp only; split_ifs <;> decide)

theorem matH_of_dims {α β : Type} {m : Mat α} {m' : Mat β}
    (h : matDims m = matDims m') : matH m = matH m' := congrArg Prod.fst h

theorem matW_of_dims {α β : Type} {m : Mat α} {m' : Mat β}
    (h : matDims m = matDims m') : matW m = matW m' := congrArg Prod.snd h

theorem matDims_mapRows {α β : Type} (f : List α → List β)
    (hf : ∀ r, (f r).length = r.length) (m : Mat α) :
    matDims (m.map f) = matDims m := by
  cases m with
  | nil => rfl
  | cons r t => simp [matDims, matH, matW, hf]

theorem matDims_fliplr {α : Type} (m : Mat α) :
    matDims (fliplrM m) = matDims m :=
  matDims_mapRows List.reverse (fun r => r.length_reverse) m

theorem Rect_fliplr {α : Type} {m : Mat α} (h : Rect m) : Rect (fliplrM m) := by
  intro row hrow
  obtain ⟨r, hr, rfl⟩ := List.mem_map.1 hrow
  rw [List.length_reverse, matW_of_dims (matDims_fliplr m)]
  exact h r hr

theorem getD_zero_mem {α : Type} (l : List α) (d : α) (h : 0 < l.length) :
    l.getD 0 d ∈ l := by
  rw [List.getD_eq_getElem?_getD, List.getElem?_eq_getElem h]
  exact List.getElem_mem h

theorem matW_flipud {α : Type} {m : Mat α} (h : Rect m) :
    matW (flipudM m) = matW m := by
  cases m with
  | nil => rfl
  | cons r t =>
    have h0 : 0 < (r :: t).reverse.length := by simp
    exact h _ (List.mem_reverse.1 (getD_zero_mem _ _ h0))

theorem matDims_flipud {α : Type} {m : Mat α} (h : Rect m) :
    matDims (flipudM m) = matDims m := by
  show (matH (flipudM m), matW (flipudM m)) = (matH m, matW m)
  rw [matW_flipud h]
  unfold matH flipudM
  rw [List.length_reverse]

theorem Rect_flipud {α : Type} {m : Mat α} (h : Rect m) : Rect (flipudM m) := by
  intro row hrow
  rw [matW_flipud h]
  exact h row (List.mem_reverse.1 hrow)

theorem matH_rot90 {α : Type} [Inhabited α] (m : Mat α) :
    matH (rot90M m) = matW m := by
  simp [rot90M, matH]

theorem matW_rot90 {α : Type} [Inhabited α] (m : Mat α) (h : 0 < matW m) :
    matW (rot90M m) = matH m := by
  show ((rot90M m).getD 0 []).length = matH m
  unfold rot90M
  rw [getD_range_map _ _ _ _ h]
  simp [matH]

theorem matDims_rot90_square {α : Type} [Inhabited α] {m : Mat α}
    (h : matH m = matW m) : matDims (rot90M m) = matDims m := by
  by_cases hw : 0 < matW m
  · show (matH (rot90M m), matW (rot90M m)) = (matH m, matW m)
    rw [matH_rot90, matW_rot90 m hw, h]
  · have hw0 : matW m = 0 := by omega
    have hh0 : matH m = 0 := by rw [h, hw0]
    have hnil : rot90M m = [] := by simp [rot90M, hw0]
    show (matH (rot90M m), matW (rot90M m)) = (matH m, matW m)
    rw [hnil, hh0, hw0]
    rfl

theorem matDims_rotk_square {α : Type} [Inhabited α] {m : Mat α}
    (h : matH m = matW m) : ∀ k, matDims (rotk k m) = matDims m := by
  intro k
  induction k with
  | zero => rfl
  | succ n ih =>
    have hsq : matH (rotk n m) = matW (rotk n m) := by
      rw [matH_of_dims ih, matW_of_dims ih, h]
    show matDims (rot90M (rotk n m)) = matDims m
    rw [matDims_rot90_square hsq, ih]

theorem matDims_pilRotate_square {m : Mat Pix} (k : ℕ) (hR : Rect m)
    (hsq : matH m = matW m) : matDims (pilRotate90k k m) = matDims m := by
  unfold pilRotate90k
  split_ifs with h1 h2
  · rfl
  · calc matDims (flipudM (fliplrM m))
        = matDims (fliplrM m) := matDims_flipud (Rect_fliplr hR)
      _ = matDims m := matDims_fliplr m
  · exact matDims_rotk_square hsq _

theorem flipStageH_dims_rect {α : Type} (b : Bool) {m : Mat α} (h : Rect m) :
    matDims (flipStageH b m) = matDims m ∧ Rect (flipStageH b m) := by
  cases b with
  | false => exact ⟨rfl, h⟩
  | true => exact ⟨matDims_fliplr m, Rect_fliplr h⟩

theorem flipStageV_dims_rect {α : Type} (b : Bool) {m : Mat α} (h : Rect m) :
    matDims (flipStageV b m) = matDims m ∧ Rect (flipStageV b m) := by
  cases b with
  | false => exact ⟨rfl, h⟩
  | true => exact ⟨matDims_flipud h, Rect_flipud h⟩

theorem rotStageImg_dims (k : ℕ) {m : Mat Pix} (hR : Rect m)
    (hsq : matH m = matW m) : matDims (rotStageImg k m) = matDims m := by
  unfold rotStageImg
  split_ifs
  · exact matDims_pilRotate_square k hR hsq
  · rfl

theorem rotStageLbl_dims {α : Type} [Inhabited α] (k : ℕ) {m : Mat α}
    (hsq : matH m = matW m) : matDims (rotStageLbl k m) = matDims m := by
  unfold rotStageLbl
  split_ifs
  · exact matDims_rotk_square hsq k
  · rfl

theorem ratTrunc_nonneg {q : ℚ} (h : 0 ≤ q) : 0 ≤ ratTrunc q := by
  unfold ratTrunc
  rw [Int.tdiv_eq_ediv (Rat.num_nonneg.2 h) (Int.natCast_nonneg _)]
  exact Int.ediv_nonneg (Rat.num_nonneg.2 h) (Int.natCast_nonneg _)

theorem ratTrunc_le_int {q : ℚ} {B : ℤ} (h0 : 0 ≤ q) (h : q ≤ (B : ℚ)) :
    ratTrunc q ≤ B := by
  unfold ratTrunc
  rw [Int.tdiv_eq_ediv (Rat.num_nonneg.2 h0) (Int.natCast_nonneg _)]
  have hden : (0 : ℤ) < (q.den : ℤ) := by exact_mod_cast q.den_pos
  have hnum : q.num ≤ B * (q.den : ℤ) := by
    have hle := Rat.le_def.1 h
    simpa using hle
  calc q.num / (q.den : ℤ) ≤ (B * (q.den : ℤ)) / (q.den : ℤ) :=
        Int.ediv_le_ediv hden hnum
    _ = B := Int.mul_ediv_cancel _ (by omega)

/-! ### Claim theorems.  The local semireducible attribute lets decide
evaluate the sealed core Rat operations on the concrete rational inputs
of the witnesses and counterexamples below. -/

attribute [local semireducible] Rat.ofScientific Rat.add Rat.sub Rat.mul Rat.inv

/-- C8: gen_random with seed 3k returns exactly the desert grid, 3k+1 the
rocky grid, 3k+2 the mixed grid, for every non-negative k; the selection
is seed mod 3 and nothing else. -/
theorem gen_random_style_selection (nf : NoiseFields) (size : ℕ) (k : ℕ) :
    gen_random nf size (3 * k) = gen_desert nf size (3 * k) ∧
    gen_random nf size (3 * k + 1) = gen_rocky nf size (3 * k + 1) ∧
    gen_random nf size (3 * k + 2) = gen_mixed nf size (3 * k + 2) := by
  have h0 : (3 * (k : ℤ)) % 3 = 0 := by omega
  have h1 : (3 * (k : ℤ) + 1) % 3 = 1 := by omega
  have h2 : (3 * (k : ℤ) + 2) % 3 = 2 := by omega
  refine ⟨?_, ?_, ?_⟩ <;> simp [gen_random, h0, h1, h2]

/-- C2 counterexample: at grid size 0, gen_desert / gen_rocky / gen_mixed
silently return the degenerate 0 x 0 grid (and the render rgb stage maps
it to the 0 x 0 raster); no invalid-input error is raised, contrary to the
claim. -/
theorem gen_size_zero_counterexample :
    gen_desert nfZero 0 0 = ([] : Mat ℕ) ∧
    gen_rocky nfZero 0 0 = ([] : Mat ℕ) ∧
    gen_mixed nfZero 0 0 = ([] : Mat ℕ) ∧
    renderRGB [] jitZero = ([] : Mat Pix) :=
  ⟨rfl, rfl, rfl, rfl⟩

/-- C2 amended: for size-0 input every generator returns the empty 0 x 0
grid without raising, for any noise fields and seed, and the render rgb
stage likewise returns the empty raster; no explicit size validation
exists in these functions. -/
theorem gen_size_zero_returns_empty (nf : NoiseFields) (seed : ℤ) :
    gen_desert nf 0 seed = [] ∧ gen_rocky nf 0 seed = [] ∧
    gen_mixed nf 0 seed = [] ∧
    ∀ jit, renderRGB [] jit = [] :=
  ⟨rfl, rfl, rfl, fun _ => rfl⟩

/-- C6: in the mixed style, the gravel-path rule and the sand-strip rule
test the live grid value (labels == 4) at the moment they run, so every
cell an earlier rule set to a non-default class is left unchanged by
them; and each cell of gen_mixed is exactly the per-cell cascade value. -/
theorem gen_mixed_preserves_nondefault
    (nf : NoiseFields) (size : ℕ) (seed : ℤ) (j i : ℕ)
    (hj : j < size) (hi : i < size) :
    (∀ w r x z : ℚ, mixedCellPre w r x z ≠ 4 →
        mixedCell w r x z = mixedCellPre w r x z) ∧
    cellAt (gen_mixed nf size seed) j i
      = mixedCell (nf.mixedWave size seed j i) (nf.mixedR size seed j i)
          (coordQ size i) (coordQ size j) := by
  constructor
  · intro w r x z h
    unfold mixedCell
    dsimp only
    have hg : (if (|x - 0.5| < 0.06 ∨ |z - 0.5| < 0.06) ∧
        mixedCellPre w r x z = 4 then (6 : ℕ)
        else mixedCellPre w r x z) = mixedCellPre w r x z :=
      if_neg fun hc => h hc.2
    rw [hg, if_neg fun hc => h hc.2.1]
  · exact cellAt_gridOf size _ j i hj hi

/-- C6 witness: a Water cell (the fields put the cell in the water disc,
so the cascade state before the path rules is 7, not the default 4) is
untouched by the gravel-path and sand-strip rules. -/
theorem gen_mixed_preserves_nondefault_witness :
    mixedCell 0 0 0.82 0.82 = mixedCellPre 0 0 0.82 0.82 ∧
    cellAt (gen_mixed nfZero 1 0) 0 0
      = mixedCell 0 0 (coordQ 1 0) (coordQ 1 0) := by
  have h := gen_mixed_preserves_nondefault nfZero 1 0 0 0 (by decide) (by decide)
  exact ⟨h.1 0 0 0.82 0.82 (by decide), h.2⟩

/-- C7: every cell of every grid produced by gen_desert, gen_rocky and
gen_mixed is a valid registry id (0..9), for every grid size, seed and
noise-field values: each cascade starts from a total default and every
rule writes a registry id. -/
theorem gen_class_id_closure (nf : NoiseFields) (size : ℕ) (seed : ℤ) :
    (∀ row ∈ gen_desert nf size seed, ∀ v ∈ row,
        v ∈ TERRAIN_CLASSES.map TClass.id) ∧
    (∀ row ∈ gen_rocky nf size seed, ∀ v ∈ row,
        v ∈ TERRAIN_CLASSES.map TClass.id) ∧
    (∀ row ∈ gen_mixed nf size seed, ∀ v ∈ row,
        v ∈ TERRAIN_CLASSES.map TClass.id) :=
  ⟨gridOf_mem fun _ _ => desertCell_mem_ids _ _,
   gridOf_mem fun _ _ => rockyCell_mem_ids _ _ _,
   gridOf_mem fun _ _ => mixedCell_mem_ids _ _ _ _⟩

/-- C7 witness: the closure theorem applied to the concrete 1 x 1 desert
grid for the all-zero fields, whose only cell is Sand (3). -/
theorem gen_class_id_closure_witness :
    (3 : ℕ) ∈ TERRAIN_CLASSES.map TClass.id :=
  (gen_class_id_closure nfZero 1 0).1 [3] (by decide) 3 (by decide)

/-- C5 counterexample: a cell whose id 10 is not in the registry receives
cost 0 in the generate_cost_map lookup, and 0 is not the cost of any
registry class; in render_terrain it receives color (0,0,0), which is not
the color of any registry class -- so the fallback is the zero
initialisation, not a defined default class. -/
theorem unknown_class_id_counterexample :
    costLookupCell TERRAIN_CLASSES 10 = 0 ∧
    (∀ c ∈ TERRAIN_CLASSES, costLookupCell TERRAIN_CLASSES 10 ≠ c.cost) ∧
    renderCell (fun _ => (0, 0, 0)) 10 = (0, 0, 0) ∧
    (∀ c ∈ TERRAIN_CLASSES, renderCell (fun _ => (0, 0, 0)) 10 ≠ c.rgb) := by
  decide

/-- C5 amended: an id absent from the registry never raises: the cost
lookup of generate_cost_map leaves the zero-initialised cost 0.0 and the
render_terrain loop leaves the zero-initialised black pixel, for any
jitter draws. -/
theorem unknown_class_id_fallback (v : ℕ)
    (hv : v ∉ TERRAIN_CLASSES.map TClass.id) (jit : ℕ → ℚ × ℚ × ℚ) :
    costLookupCell TERRAIN_CLASSES v = 0 ∧ renderCell jit v = (0, 0, 0) := by
  have hid : ∀ c ∈ TERRAIN_CLASSES, v ≠ c.id := by
    intro c hc he
    exact hv (List.mem_map.2 ⟨c, hc, he.symm⟩)
  constructor
  · exact foldl_id_of_mem fun b c hc => if_neg (hid c hc)
  · refine foldl_id_of_mem fun b p hp => if_neg ?_
    have h1 : p.1 = p.2.id :=
      (by decide : ∀ p ∈ TERRAIN_CLASSES.enum, p.1 = p.2.id) p hp
    have h2 : p.2 ∈ TERRAIN_CLASSES :=
      (by decide : ∀ p ∈ TERRAIN_CLASSES.enum, p.2 ∈ TERRAIN_CLASSES) p hp
    rw [h1]
    exact hid p.2 h2

/-- C5 witness: the fallback theorem at the concrete unknown id 10. -/
theorem unknown_class_id_fallback_witness :
    costLookupCell TERRAIN_CLASSES 10 = 0 ∧
    renderCell (fun _ => (1, 1, 1)) 10 = (0, 0, 0) :=
  unknown_class_id_fallback 10 (by decide) (fun _ => (1, 1, 1))

/-- C1: apply_terrain_colormap never reaches the zoned per-cell mapping:
line 92 evaluates (255).astype(np.uint8) on a plain Python int, which
raises AttributeError for every input grid, so no cell is ever colored
(the claim describes the intended, documented ramp). -/
theorem colormap_always_raises :
    (∀ g : Mat ℚ, apply_terrain_colormap g
      = Except.error "AttributeError: int object has no attribute astype") ∧
    apply_terrain_colormap [[0.45]]
      = Except.error "AttributeError: int object has no attribute astype" :=
  ⟨fun _ => rfl, rfl⟩

/-- C9: export flattens the grid row-major, scales each cell by 100 and
truncates to an integer; for a grid with all values in [0,1] every
exported value lies in [0,100] (hence in signed 8-bit range), the data
length is W * H, and the metadata reports width = W, height = H. -/
theorem export_cost_grid_spec (g : Mat ℚ) (res : ℚ) (hr : Rect g)
    (hv : ∀ row ∈ g, ∀ c ∈ row, 0 ≤ c ∧ c ≤ 1) :
    (export_cost_grid_ros g res).width = matW g ∧
    (export_cost_grid_ros g res).height = matH g ∧
    (export_cost_grid_ros g res).data
      = g.flatten.map (fun c => ratTrunc (c * 100)) ∧
    (export_cost_grid_ros g res).data.length = matW g * matH g ∧
    ∀ x ∈ (export_cost_grid_ros g res).data,
      0 ≤ x ∧ x ≤ 100 ∧ (-128 : ℤ) ≤ x ∧ x ≤ 127 := by
  refine ⟨rfl, rfl, rfl, ?_, ?_⟩
  · show (g.flatten.map fun c => ratTrunc (c * 100)).length = matW g * matH g
    rw [List.length_map, List.length_flatten]
    have hrepl : g.map List.length = List.replicate (matH g) (matW g) := by
      refine List.eq_replicate_iff.2 ⟨by simp [matH], ?_⟩
      intro b hb
      obtain ⟨row, hrow, rfl⟩ := List.mem_map.1 hb
      exact hr row hrow
    rw [hrepl, List.sum_replicate, smul_eq_mul, Nat.mul_comm]
  · intro x hx
    obtain ⟨c, hc, rfl⟩ := List.mem_map.1 hx
    obtain ⟨row, hrow, hcrow⟩ := List.mem_flatten.1 hc
    obtain ⟨h0, h1⟩ := hv row hrow c hcrow
    have hb0 : (0 : ℚ) ≤ c * 100 := by positivity
    have hb1 : c * 100 ≤ ((100 : ℤ) : ℚ) := by push_cast; nlinarith
    have t0 := ratTrunc_nonneg hb0
    have t1 := ratTrunc_le_int hb0 hb1
    exact ⟨t0, t1, by omega, by omega⟩

/-- C9 witness: the 2 x 2 grid of all 0.5 exports to the flat array
[50, 50, 50, 50] of length 2 * 2. -/
theorem export_cost_grid_spec_witness :
    (export_cost_grid_ros [[1/2, 1/2], [1/2, 1/2]] 0.05).data.length
        = matW [[(1 : ℚ)/2, 1/2], [1/2, 1/2]] * matH [[(1 : ℚ)/2, 1/2], [1/2, 1/2]] ∧
    (export_cost_grid_ros [[1/2, 1/2], [1/2, 1/2]] 0.05).data
        = [50, 50, 50, 50] := by
  have h := export_cost_grid_spec [[1/2, 1/2], [1/2, 1/2]] 0.05
    (by decide) (by decide)
  exact ⟨h.2.2.2.1, by decide⟩

/-- C10: each height cell is base[classId] + variance[classId] * u[cell]
for the fixed tables, and for class id 0 (Rock) noise 0 gives 0.55 and
noise 1 gives 1.05. -/
theorem height_map_formula (labels : Mat ℕ) (u : ℕ → ℕ → ℚ) (j i : ℕ)
    (hj : j < matH labels) (hi : i < (labels.getD j []).length) :
    cellAt (heightMapGrid labels u) j i
      = H_BASE.getD (cellAt labels j i) 0
        + H_VAR.getD (cellAt labels j i) 0 * u j i ∧
    heightCell 0 0 = 0.55 ∧ heightCell 0 1 = 1.05 := by
  refine ⟨?_, by decide, by decide⟩
  show ((heightMapGrid labels u).getD j []).getD i default
      = H_BASE.getD (cellAt labels j i) 0
        + H_VAR.getD (cellAt labels j i) 0 * u j i
  unfold heightMapGrid
  rw [getD_range_map _ _ _ _ hj, getD_range_map _ _ _ _ hi]
  rfl

/-- C10 witness: the formula theorem at a concrete 1 x 1 Rock grid with a
concrete noise field. -/
theorem height_map_formula_witness :
    cellAt (heightMapGrid [[0]] (fun _ _ => 1)) 0 0
      = H_BASE.getD (cellAt [[0]] 0 0) 0
        + H_VAR.getD (cellAt [[0]] 0 0) 0 * 1 ∧
    heightCell 0 0 = 0.55 ∧ heightCell 0 1 = 1.05 :=
  height_map_formula [[0]] (fun _ _ => 1) 0 0 (by decide) (by decide)

/-- C3 counterexample: augment_image applied to an image/label pair of
mismatched shapes (1 x 1 image, 2 x 2 label) raises nothing and returns
the transformed pair -- with identity draws, the misaligned pair itself --
instead of failing fast with a shape-mismatch error. -/
theorem augment_mismatch_counterexample :
    matDims ([[(5, 5, 5)]] : Mat Pix) ≠ matDims ([[1, 2], [3, 4]] : Mat ℕ) ∧
    augment_image [[(5, 5, 5)]] [[1, 2], [3, 4]] ⟨false, false, 0, 1⟩
      = ([[(5, 5, 5)]], [[1, 2], [3, 4]]) := by
  decide

/-- C3 amended: augment_image contains no shape validation at all: the
label it returns is computed from the label and the geometric draws
alone, identically for any two images whatever their shapes, and the
call always returns a pair rather than raising. -/
theorem augment_no_shape_check (img img' : Mat Pix) (lbl : Mat ℕ)
    (d : Draws) :
    (augment_image img lbl d).2 = (augment_image img' lbl d).2 := rfl

/-- C4 counterexample: on a spatially aligned but non-square 1 x 2 pair
with rotation draw k = 1, Pillow rotate keeps the 1 x 2 image canvas
(resampling into it) while np.rot90 transposes the label to 2 x 1, so the
returned image and label are no longer spatially aligned. -/
theorem augment_nonsquare_misalignment :
    matDims ([[(10, 20, 30), (40, 50, 60)]] : Mat Pix)
        = matDims ([[1, 2]] : Mat ℕ) ∧
    matDims (augment_image [[(10, 20, 30), (40, 50, 60)]] [[1, 2]]
        ⟨false, false, 1, 1⟩).1
      ≠ matDims (augment_image [[(10, 20, 30), (40, 50, 60)]] [[1, 2]]
        ⟨false, false, 1, 1⟩).2 := by
  decide

/-- C4 amended: the label augment_image returns is exactly the recorded
flip/rotation sequence applied to the original label with no photometric
step, for every input and every draws; and whenever the image is square
and the pair is aligned (rectangular, equal shapes), the returned image
and label have equal shapes, i.e. stay spatially aligned. -/
theorem augment_label_geometric (img : Mat Pix) (lbl : Mat ℕ) (d : Draws) :
    (augment_image img lbl d).2 = applyGeoLabel d lbl ∧
    (Rect img → Rect lbl → matDims img = matDims lbl →
      matH img = matW img →
      matDims (augment_image img lbl d).1
        = matDims (augment_image img lbl d).2) := by
  refine ⟨rfl, ?_⟩
  intro hRi hRl hdim hsq
  obtain ⟨hd1, hr1⟩ := flipStageH_dims_rect d.hflip hRi
  obtain ⟨hd2, hr2⟩ := flipStageV_dims_rect d.vflip hr1
  have hsq2 : matH (flipStageV d.vflip (flipStageH d.hflip img))
      = matW (flipStageV d.vflip (flipStageH d.hflip img)) := by
    rw [matH_of_dims hd2, matH_of_dims hd1, matW_of_dims hd2,
      matW_of_dims hd1, hsq]
  obtain ⟨ld1, lr1⟩ := flipStageH_dims_rect d.hflip hRl
  obtain ⟨ld2, _⟩ := flipStageV_dims_rect d.vflip lr1
  have lsq2 : matH (flipStageV d.vflip (flipStageH d.hflip lbl))
      = matW (flipStageV d.vflip (flipStageH d.hflip lbl)) := by
    rw [matH_of_dims ld2, matH_of_dims ld1, matW_of_dims ld2,
      matW_of_dims ld1, matH_of_dims hdim.symm, matW_of_dims hdim.symm, hsq]
  show matDims ((rotStageImg d.k.val
      (flipStageV d.vflip (flipStageH d.hflip img))).map
        (List.map (jitterPix d.factor)))
    = matDims (rotStageLbl d.k.val
      (flipStageV d.vflip (flipStageH d.hflip lbl)))
  rw [matDims_mapRows _ (fun r => r.length_map _),
    rotStageImg_dims d.k.val hr2 hsq2, rotStageLbl_dims d.k.val lsq2,
    hd2, hd1, ld2, ld1, hdim]

/-- C4 witness: the amended theorem at a concrete square aligned 1 x 1
pair with flips, rotation k = 1 and photometric factor 9/10. -/
theorem augment_label_geometric_witness :
    (augment_image [[(1, 2, 3)]] [[4]] ⟨true, true, 1, 9/10⟩).2
        = applyGeoLabel ⟨true, true, 1, 9/10⟩ [[4]] ∧
    matDims (augment_image [[(1, 2, 3)]] [[4]] ⟨true, true, 1, 9/10⟩).1
        = matDims (augment_image [[(1, 2, 3)]] [[4]] ⟨true, true, 1, 9/10⟩).2 := by
  have h := augment_label_geometric [[(1, 2, 3)]] [[4]] ⟨true, true, 1, 9/10⟩
  exact ⟨h.1, h.2 (by decide) (by decide) (by decide) (by decide)⟩
